import Mathlib

/-!
Shallow embedding of the Flask service in app.py: a proxy over one Google
Sheets spreadsheet.  Worksheets are lists of rows, rows are lists of cell
strings; the external spreadsheet is an association list from worksheet
title to worksheet content.  Each HTTP handler is embedded as a pure
function; handlers that touch the external spreadsheet take it as input and
return the possibly-updated spreadsheet alongside the response.
-/

namespace Uninter3

/-! Data model: worksheet = list of rows, spreadsheet = titled worksheets. -/

abbrev Worksheet := List (List String)

abbrev Spreadsheet := List (String × Worksheet)

/-- Look up a worksheet by title, as sh.worksheet(title) does; none models
gspread.WorksheetNotFound. -/
def wsLookup : Spreadsheet → String → Option Worksheet
  | [], _ => none
  | (t, w) :: rest, title => if t = title then some w else wsLookup rest title

/-- Replace the worksheet stored under a title, adding it at the end when no
worksheet has that title. -/
def spSet : Spreadsheet → String → Worksheet → Spreadsheet
  | [], title, w => [(title, w)]
  | (t, w0) :: rest, title, w =>
      if t = title then (t, w) :: rest else (t, w0) :: spSet rest title w

/-- Overwriting a cell range keeps the cells of the old row that lie to the
right of the written range. -/
def mergeRow (old newRow : List String) : List String :=
  newRow ++ old.drop newRow.length

/-- Semantics of ws.update(cell, vals) for a range anchored at column A:
`start` is the 0-based row index of the anchor cell (0 for A1, 1 for A2),
and each row of `vals` overwrites the corresponding worksheet row cell by
cell, rows below and cells to the right being preserved. -/
def updateRows : Nat → List (List String) → Worksheet → Worksheet
  | _, [], w => w
  | 0, v :: vs, w => mergeRow (w.headD []) v :: updateRows 0 vs w.tail
  | s + 1, vals, w => w.headD [] :: updateRows s vals w.tail

/-- The worksheet operations the handlers perform against the Sheets API. -/
inductive SheetOp
  | getAllValues (title : String)
  | clear (title : String)
  | addWorksheet (title : String)
  | updateAt (title : String) (start : Nat) (vals : List (List String))
deriving Repr

/-- Effect of one operation on the external spreadsheet: reads leave it
unchanged, clear empties the worksheet, add creates an empty worksheet,
update rewrites a row range. -/
def applyOp (sp : Spreadsheet) : SheetOp → Spreadsheet
  | SheetOp.getAllValues _ => sp
  | SheetOp.clear t => spSet sp t []
  | SheetOp.addWorksheet t => spSet sp t []
  | SheetOp.updateAt t s vals =>
      spSet sp t (updateRows s vals ((wsLookup sp t).getD []))

def applyOps (sp : Spreadsheet) (ops : List SheetOp) : Spreadsheet :=
  ops.foldl applyOp sp

/-! Pagination: lines 107-110 and 205-208 of app.py.  limit and offset are
the query parameters after int() parsing (requests whose parameters do not
parse to integers are answered 400 before any clamping). -/

/-- limit = max(0, min(limit, 1000)) in sheets_preview. -/
def previewClampLimit (limit : Int) : Int := max 0 (min limit 1000)

/-- limit = max(0, min(limit, 2000)) in sheets_view. -/
def viewClampLimit (limit : Int) : Int := max 0 (min limit 2000)

/-- offset = max(0, offset) in both paginated handlers. -/
def clampOffset (offset : Int) : Int := max 0 offset

/-- body[offset : offset + limit] if limit > 0 else body[offset:], for the
clamped (hence non-negative) limit and offset. -/
def sliceBody (body : List (List String)) (limit offset : Int) : List (List String) :=
  if 0 < limit then (body.drop offset.toNat).take limit.toNat
  else body.drop offset.toNat

/-- Header row: data[0] if data else []. -/
def headerOf (data : List (List String)) : List String := data.headD []

/-- Body rows: data[1:] if len(data) > 1 else [] — which is data[1:] in every
case, i.e. the tail. -/
def bodyOf (data : List (List String)) : List (List String) := data.tail

/-- Rows selected by sheets_preview, line 121 of app.py. -/
def previewSliced (data : List (List String)) (limit offset : Int) : List (List String) :=
  sliceBody (bodyOf data) (previewClampLimit limit) (clampOffset offset)

/-- Rows selected by sheets_view, line 219 of app.py. -/
def viewSliced (data : List (List String)) (limit offset : Int) : List (List String) :=
  sliceBody (bodyOf data) (viewClampLimit limit) (clampOffset offset)

/-! JSON preview: dict(zip(header, r)) builds a Python dict in first-insertion
key order where a later duplicate key overwrites the stored value. -/

/-- d[k] = v on an insertion-ordered dictionary. -/
def dictInsert (d : List (String × String)) (k v : String) : List (String × String) :=
  if d.any (fun p => p.1 = k) then
    d.map (fun p => if p.1 = k then (k, v) else p)
  else d ++ [(k, v)]

/-- dict(zip(ks, vs)): pairing truncated to the shorter list, later
duplicates overwriting earlier values. -/
def zipToDict (ks vs : List String) : List (String × String) :=
  (List.zip ks vs).foldl (fun d p => dictInsert d p.1 p.2) []

/-- The preview field is a list of dicts when the header row is non-empty
and the raw list of sliced rows otherwise. -/
inductive PreviewOut
  | dicts (entries : List (List (String × String)))
  | raw (rows : List (List String))
deriving Repr, DecidableEq

/-- The JSON body of a 200 response from sheets_preview. -/
structure PreviewResponse where
  sheet : String
  total_rows : Nat
  limit : Int
  offset : Int
  preview : PreviewOut
deriving Repr, DecidableEq

/-- sheets_preview on the worksheet values, lines 118-129 of app.py. -/
def sheetsPreview (data : List (List String)) (limit offset : Int)
    (title : String) : PreviewResponse :=
  let header := headerOf data
  let body := bodyOf data
  let sliced := previewSliced data limit offset
  let out := if header.isEmpty then PreviewOut.raw sliced
             else PreviewOut.dicts (sliced.map (fun r => zipToDict header r))
  ⟨title, body.length, previewClampLimit limit, clampOffset offset, out⟩

/-! CSV export: csv.writer with the default dialect except
lineterminator set to a bare newline (line 153 of app.py).  Under
QUOTE_MINIMAL a field is quoted when it contains the delimiter, the quote
character or a character of the line terminator, quote characters being
doubled; a record consisting of one empty field is written as a quoted
empty field. -/

def dquote : Char := Char.ofNat 34

def newlineChar : Char := Char.ofNat 10

def dquoteStr : String := String.singleton dquote

/-- Does QUOTE_MINIMAL quote this field? -/
def csvNeedsQuote (f : String) : Bool :=
  f.toList.any (fun c => c = ',' || c = dquote || c = newlineChar)

/-- One CSV field as csv.writer emits it. -/
def csvField (f : String) : String :=
  if csvNeedsQuote f then
    dquoteStr ++ (f.replace dquoteStr (dquoteStr ++ dquoteStr)) ++ dquoteStr
  else f

/-- One CSV record without its line terminator. -/
def csvRow (r : List String) : String :=
  match r with
  | [fld] => if fld = "" then dquoteStr ++ dquoteStr else csvField fld
  | _ => String.intercalate ("," : String) (r.map csvField)

/-- Concatenation of a list of strings. -/
def strJoin : List String → String
  | [] => ""
  | s :: rest => s ++ strJoin rest

/-- Body of the text/csv response of sheets_export_csv, lines 149-158 of
app.py: an empty worksheet short-circuits to an empty body, otherwise each
row is written through the writer in order, each followed by the newline
terminator, into one growing buffer. -/
def sheetsExportCsv (data : List (List String)) : String :=
  if data = [] then ""
  else data.foldl (fun acc r => acc ++ (csvRow r ++ String.singleton newlineChar)) ""

/-! HTML view: the table fragment of sheets_view, lines 243-257 of app.py. -/

def ampChar : Char := Char.ofNat 38

def aposChar : Char := Char.ofNat 39

/-- html.escape on one character (quote=True, the default). -/
def escapeChar (c : Char) : String :=
  if c = ampChar then "&amp;"
  else if c = '<' then "&lt;"
  else if c = '>' then "&gt;"
  else if c = dquote then "&quot;"
  else if c = aposChar then "&#x27;"
  else String.singleton c

/-- html.escape(s): replaces ampersand, angle brackets and both quote
characters; the sequential str.replace calls of the CPython implementation
act independently per character, so the character-wise map is the same
function. -/
def htmlEscape (s : String) : String := strJoin (s.toList.map escapeChar)

/-- One td element, lines 249-255 of app.py: a value starting with
http or https scheme becomes a link whose href and text are the escaped
value, every other value becomes its escaped text. -/
def renderCellHtml (cell : String) : String :=
  if cell.startsWith ("http://") || cell.startsWith ("https://") then
    "<td><a href=\x27" ++ htmlEscape cell ++ "\x27 target=\x27_blank\x27 rel=\x27noopener\x27>"
      ++ htmlEscape cell ++ "</a></td>"
  else "<td>" ++ htmlEscape cell ++ "</td>"

/-- The table part of the HTML page built by sheets_view: html_out is a
buffer of appended fragments joined at the end, transcribed as a fold that
appends th elements for the header and tr/td elements for the sliced
rows. -/
def sheetsViewTable (data : List (List String)) (limit offset : Int) : String :=
  let header := headerOf data
  let rows := viewSliced data limit offset
  let s1 := header.foldl (fun acc col => acc ++ ("<th>" ++ htmlEscape col ++ "</th>"))
    ("<table><thead><tr>")
  let s2 := s1 ++ "</tr></thead><tbody>"
  let s3 := rows.foldl
    (fun acc r =>
      (r.foldl (fun a cell => a ++ renderCellHtml cell) (acc ++ "<tr>")) ++ "</tr>") s2
  s3 ++ "</tbody></table>"

/-! Credential loading, lines 21-24 and 72-89 of app.py. -/

/-- Scopes recommended for Sheets plus Drive, lines 21-24. -/
def GSHEETS_SCOPES : List String :=
  ["https://www.googleapis.com/auth/spreadsheets",
   "https://www.googleapis.com/auth/drive"]

/-- JSON values, the result type of json.loads. -/
inductive Json
  | null
  | bool (b : Bool)
  | num (n : Int)
  | str (s : String)
  | arr (xs : List Json)
  | obj (fields : List (String × Json))
deriving Repr

def missingEnvMsg : String := "Falta a env GOOGLE_CREDENTIALS_JSON no Render."

def invalidJsonMsg : String := "GOOGLE_CREDENTIALS_JSON inválido (não é JSON)."

/-- The content the loader parses: the file content when the variable names
an existing readable file, the raw value itself otherwise.  fs models the
filesystem: fs p = some c exactly when p is an existing file of content c. -/
def chosenContent (raw : String) (fs : String → Option String) : String :=
  (fs raw).getD raw

/-- _load_service_account_info, lines 72-84: os.getenv gives none when the
variable is unset; a falsy (empty) value raises; an existing file path is
read and parsed, any other value is parsed inline; an unparsable content
raises.  parse models json.loads, returning none on invalid JSON. -/
def loadServiceAccountInfo (env : Option String) (fs : String → Option String)
    (parse : String → Option Json) : Except String Json :=
  match env with
  | none => Except.error missingEnvMsg
  | some raw =>
    if raw = "" then Except.error missingEnvMsg
    else
      match parse (chosenContent raw fs) with
      | some j => Except.ok j
      | none => Except.error invalidJsonMsg

/-- Credentials.from_service_account_info(info, scopes=...): the info dict
and the scopes it is authorized for. -/
structure Credentials where
  info : Json
  scopes : List String
deriving Repr

/-- _gspread_client, lines 86-89: loads the service-account info and scopes
the resulting credentials with GSHEETS_SCOPES. -/
def gspreadClient (env : Option String) (fs : String → Option String)
    (parse : String → Option Json) : Except String Credentials :=
  match loadServiceAccountInfo env fs parse with
  | Except.ok info => Except.ok ⟨info, GSHEETS_SCOPES⟩
  | Except.error e => Except.error e

/-! API-key gate and the upload endpoint, lines 28-29, 61-70 and 267-323. -/

/-- Module-level constant, line 28 of app.py. -/
def REQUIRE_API_KEY : Bool := false

/-- _require_api_key_if_enabled, lines 61-70: apiKeyEnv models
os.getenv(API_KEY_ENV_NAME, "") and headerKey models the X-API-KEY request
header (absent headers default to the empty string). -/
def requireApiKeyIfEnabled (apiKeyEnv : Option String) (headerKey : Option String) :
    Bool × String :=
  if !REQUIRE_API_KEY then (true, "")
  else
    let expected := (apiKeyEnv.getD "").trim
    let provided := (headerKey.getD "").trim
    if expected = "" then
      (false, "SERVER_MISCONFIG: defina API_KEY no ambiente.")
    else if provided ≠ expected then
      (false, "UNAUTHORIZED: X-API-KEY inválido ou ausente.")
    else (true, "")

/-- A parsed pandas DataFrame: read_excel yields column labels and data
rows. -/
structure DataFrame where
  columns : List String
  values : List (List String)
deriving Repr, DecidableEq

/-- df.empty: true when the frame has no rows or no columns. -/
def dfEmpty (df : DataFrame) : Bool := df.values.isEmpty || df.columns.isEmpty

/-- Responses of POST /send-to-sheets. -/
inductive SendResp
  | unauthorized (msg : String)
  | badRequest (msg : String)
  | ok (rows : Nat) (sheet : String)
deriving Repr, DecidableEq

def SendResp.isUnauthorized : SendResp → Bool
  | SendResp.unauthorized _ => true
  | _ => false

/-- The Sheets operations send_to_sheets performs, lines 300-311: fetch the
worksheet, creating it when missing; clear it; then write the sentinel cell
for an empty frame, or the header row at A1 and the data rows at A2. -/
def sendToSheetsOps (sp : Spreadsheet) (title : String) (df : DataFrame) :
    List SheetOp :=
  (if (wsLookup sp title).isSome then [] else [SheetOp.addWorksheet title])
    ++ [SheetOp.clear title]
    ++ (if dfEmpty df then [SheetOp.updateAt title 0 [["(vazio)"]]]
        else [SheetOp.updateAt title 0 [df.columns],
              SheetOp.updateAt title 1 df.values])

/-- POST /send-to-sheets, lines 267-323.  env is the API_KEY environment
variable, headerKey the X-API-KEY header; file is none when the multipart
field is missing (400), some none when pandas fails to parse the upload
(400), and some (some df) when it parses. -/
def sendToSheets (env headerKey : Option String) (file : Option (Option DataFrame))
    (sp : Spreadsheet) (title : String) : SendResp × Spreadsheet :=
  let gate := requireApiKeyIfEnabled env headerKey
  if gate.1 = false then (SendResp.unauthorized gate.2, sp)
  else
    match file with
    | none =>
      (SendResp.badRequest
        ("Envie um arquivo Excel no campo \x27file\x27 (multipart/form-data)."), sp)
    | some none => (SendResp.badRequest ("Falha ao ler Excel"), sp)
    | some (some df) =>
      let rows := if dfEmpty df then 0 else df.values.length
      (SendResp.ok rows title, applyOps sp (sendToSheetsOps sp title df))

/-! The four read endpoints with explicit state passing: each performs only
a get_all_values operation against the spreadsheet. -/

def previewOps (title : String) : List SheetOp := [SheetOp.getAllValues title]

def exportCsvOps (title : String) : List SheetOp := [SheetOp.getAllValues title]

def exportXlsxOps (title : String) : List SheetOp := [SheetOp.getAllValues title]

def viewOps (title : String) : List SheetOp := [SheetOp.getAllValues title]

/-- GET /sheets/preview over the spreadsheet: none models the 500 answer
when the worksheet does not exist. -/
def sheetsPreviewHandler (sp : Spreadsheet) (title : String) (limit offset : Int) :
    Option PreviewResponse × Spreadsheet :=
  ((wsLookup sp title).map (fun data => sheetsPreview data limit offset title),
   applyOps sp (previewOps title))

/-- GET /sheets/export.csv over the spreadsheet. -/
def sheetsExportCsvHandler (sp : Spreadsheet) (title : String) :
    Option String × Spreadsheet :=
  ((wsLookup sp title).map sheetsExportCsv, applyOps sp (exportCsvOps title))

/-- GET /sheets/export.xlsx over the spreadsheet: the response carries the
DataFrame pd.DataFrame(data[1:], columns=data[0]) (empty for an empty
worksheet) that is serialized to the xlsx attachment. -/
def sheetsExportXlsxHandler (sp : Spreadsheet) (title : String) :
    Option DataFrame × Spreadsheet :=
  ((wsLookup sp title).map (fun data =>
      if data = [] then ⟨[], []⟩ else ⟨headerOf data, bodyOf data⟩),
   applyOps sp (exportXlsxOps title))

/-- GET /sheets/view over the spreadsheet. -/
def sheetsViewHandler (sp : Spreadsheet) (title : String) (limit offset : Int) :
    Option String × Spreadsheet :=
  ((wsLookup sp title).map (fun data => sheetsViewTable data limit offset),
   applyOps sp (viewOps title))

/-! Helper lemmas. -/

/-- Writing a range into a cleared worksheet leaves exactly the written
rows. -/
theorem updateRows_zero_nil (vs : List (List String)) : updateRows 0 vs [] = vs := by
  induction vs with
  | nil => simp [updateRows]
  | cons v rest ih => simp [updateRows, mergeRow, ih]

/-- Looking up the title just written returns the written worksheet. -/
theorem wsLookup_spSet (sp : Spreadsheet) (t : String) (w : Worksheet) :
    wsLookup (spSet sp t w) t = some w := by
  induction sp with
  | nil => simp [spSet, wsLookup]
  | cons p rest ih =>
    by_cases h : p.1 = t
    · simp [spSet, wsLookup, h]
    · simp [spSet, wsLookup, h, ih]

/-- Appending into an accumulator along a fold is the accumulator followed
by the concatenation of the pieces. -/
theorem foldl_append_eq {α : Type} (f : α → String) (xs : List α) (acc : String) :
    xs.foldl (fun a x => a ++ f x) acc = acc ++ strJoin (xs.map f) := by
  induction xs generalizing acc with
  | nil => simp [strJoin]
  | cons x rest ih => simp [strJoin, ih, String.append_assoc]

/-- The nested fold of sheets_view over rows and cells, flattened. -/
theorem foldl_rows_eq (rows : List (List String)) (acc : String) :
    rows.foldl
        (fun acc r =>
          (r.foldl (fun a cell => a ++ renderCellHtml cell) (acc ++ "<tr>")) ++ "</tr>")
        acc
      = acc ++ strJoin (rows.map (fun r =>
          "<tr>" ++ strJoin (r.map renderCellHtml) ++ "</tr>")) := by
  induction rows generalizing acc with
  | nil => simp [strJoin]
  | cons r rest ih =>
    simp only [List.foldl, List.map, strJoin, ih, foldl_append_eq,
      String.append_assoc]

/-! Claim theorems. -/

/-- C2: sheets_preview clamps limit into [0, 1000] and offset to be
non-negative, reports total_rows as the length of the body (all rows after
the header row), and for a positive clamped limit slices exactly
body[offset : offset + limit]. -/
theorem preview_clamps_and_slices (data : List (List String)) (limit offset : Int)
    (title : String) (h : 0 < previewClampLimit limit) :
    0 ≤ previewClampLimit limit ∧ previewClampLimit limit ≤ 1000 ∧
    0 ≤ clampOffset offset ∧
    (sheetsPreview data limit offset title).limit = previewClampLimit limit ∧
    (sheetsPreview data limit offset title).offset = clampOffset offset ∧
    headerOf data = data.headD [] ∧ bodyOf data = data.tail ∧
    (sheetsPreview data limit offset title).total_rows = (bodyOf data).length ∧
    previewSliced data limit offset =
      ((bodyOf data).drop (clampOffset offset).toNat).take (previewClampLimit limit).toNat := by
  refine ⟨?_, ?_, ?_, rfl, rfl, rfl, rfl, rfl, ?_⟩
  · unfold previewClampLimit; omega
  · unfold previewClampLimit; omega
  · unfold clampOffset; omega
  · simp [previewSliced, sliceBody, h]

/-- C2 witness at data with one header row and three body rows, limit 2,
offset 1. -/
theorem preview_clamps_and_slices_witness :
    0 < previewClampLimit 2 ∧
    (0 ≤ previewClampLimit 2 ∧ previewClampLimit 2 ≤ 1000 ∧
     0 ≤ clampOffset 1 ∧
     (sheetsPreview [[("h")], [("1")], [("2")], [("3")]] 2 1 ("s")).limit =
       previewClampLimit 2 ∧
     (sheetsPreview [[("h")], [("1")], [("2")], [("3")]] 2 1 ("s")).offset =
       clampOffset 1 ∧
     headerOf [[("h")], [("1")], [("2")], [("3")]] =
       List.headD [[("h")], [("1")], [("2")], [("3")]] [] ∧
     bodyOf [[("h")], [("1")], [("2")], [("3")]] =
       List.tail [[("h")], [("1")], [("2")], [("3")]] ∧
     (sheetsPreview [[("h")], [("1")], [("2")], [("3")]] 2 1 ("s")).total_rows =
       (bodyOf [[("h")], [("1")], [("2")], [("3")]]).length ∧
     previewSliced [[("h")], [("1")], [("2")], [("3")]] 2 1 =
       ((bodyOf [[("h")], [("1")], [("2")], [("3")]]).drop (clampOffset 1).toNat).take
         (previewClampLimit 2).toNat) :=
  ⟨by decide, preview_clamps_and_slices [[("h")], [("1")], [("2")], [("3")]] 2 1 ("s")
    (by decide)⟩

/-- C8: when the parsed limit is zero or negative, the clamped limit is 0
and both sheets_preview and sheets_view select the whole body from offset
onward rather than zero rows. -/
theorem nonpositive_limit_selects_all_rows (data : List (List String))
    (limit offset : Int) (h : limit ≤ 0) :
    previewSliced data limit offset = (bodyOf data).drop (clampOffset offset).toNat ∧
    viewSliced data limit offset = (bodyOf data).drop (clampOffset offset).toNat := by
  have h1 : previewClampLimit limit = 0 := by unfold previewClampLimit; omega
  have h2 : viewClampLimit limit = 0 := by unfold viewClampLimit; omega
  constructor
  · simp [previewSliced, sliceBody, h1]
  · simp [viewSliced, sliceBody, h2]

/-- C8 witness at limit -3, offset 1 on a sheet with three body rows. -/
theorem nonpositive_limit_selects_all_rows_witness :
    (-3 : Int) ≤ 0 ∧
    (previewSliced [[("h")], [("1")], [("2")], [("3")]] (-3) 1 =
       (bodyOf [[("h")], [("1")], [("2")], [("3")]]).drop (clampOffset 1).toNat ∧
     viewSliced [[("h")], [("1")], [("2")], [("3")]] (-3) 1 =
       (bodyOf [[("h")], [("1")], [("2")], [("3")]]).drop (clampOffset 1).toNat) :=
  ⟨by decide, nonpositive_limit_selects_all_rows [[("h")], [("1")], [("2")], [("3")]]
    (-3) 1 (by decide)⟩

/-- C5: the preview entries are the dictionaries dict(zip(header, row)) of
the sliced rows when the header row is non-empty, and the raw sliced rows
otherwise; the header row is empty exactly when the sheet is empty or its
first row is empty. -/
theorem preview_zips_header_with_rows (data : List (List String))
    (limit offset : Int) (title : String) :
    ((sheetsPreview data limit offset title).preview =
      if (headerOf data).isEmpty then PreviewOut.raw (previewSliced data limit offset)
      else PreviewOut.dicts ((previewSliced data limit offset).map
        (fun r => zipToDict (headerOf data) r))) ∧
    ((headerOf data).isEmpty = true ↔ data = [] ∨ headerOf data = []) := by
  constructor
  · rfl
  · cases data with
    | nil => simp [headerOf]
    | cons d rest => simp [headerOf, List.isEmpty_iff]

/-- C4: the CSV export body is each worksheet row serialized by the csv
writer in order, each followed by a bare newline; an empty worksheet gives
an empty body. -/
theorem export_csv_serializes_rows (data : List (List String)) :
    sheetsExportCsv data =
      strJoin (data.map (fun r => csvRow r ++ String.singleton newlineChar)) ∧
    sheetsExportCsv [] = "" := by
  constructor
  · by_cases h : data = []
    · subst h; simp [sheetsExportCsv, strJoin]
    · simp [sheetsExportCsv, h, foldl_append_eq, String.empty_append]
  · rfl

/-- C6: the table built by sheets_view escapes every header column and
every cell value through html.escape; a cell starting with the http or
https scheme becomes an anchor whose href and text are the escaped value,
and every other cell is its escaped text. -/
theorem view_escapes_and_links_cells (data : List (List String)) (limit offset : Int) :
    sheetsViewTable data limit offset =
      "<table><thead><tr>"
        ++ strJoin ((headerOf data).map (fun col => "<th>" ++ htmlEscape col ++ "</th>"))
        ++ ("</tr></thead><tbody>"
        ++ (strJoin ((viewSliced data limit offset).map (fun r =>
              "<tr>" ++ strJoin (r.map (fun cell =>
                if cell.startsWith ("http://") || cell.startsWith ("https://") then
                  "<td><a href=\x27" ++ htmlEscape cell
                    ++ "\x27 target=\x27_blank\x27 rel=\x27noopener\x27>"
                    ++ htmlEscape cell ++ "</a></td>"
                else "<td>" ++ htmlEscape cell ++ "</td>")) ++ "</tr>"))
        ++ "</tbody></table>")) := by
  simp only [sheetsViewTable, foldl_append_eq, foldl_rows_eq, renderCellHtml,
    String.append_assoc]

/-- C7: each of the four read endpoints performs only get_all_values
operations, so the spreadsheet after handling the request equals the
spreadsheet before it. -/
theorem read_endpoints_preserve_spreadsheet (sp : Spreadsheet) (title : String)
    (limit offset : Int) :
    (sheetsPreviewHandler sp title limit offset).2 = sp ∧
    (sheetsExportCsvHandler sp title).2 = sp ∧
    (sheetsExportXlsxHandler sp title).2 = sp ∧
    (sheetsViewHandler sp title limit offset).2 = sp := by
  refine ⟨?_, ?_, ?_, ?_⟩ <;>
    simp [sheetsPreviewHandler, sheetsExportCsvHandler, sheetsExportXlsxHandler,
      sheetsViewHandler, previewOps, exportCsvOps, exportXlsxOps, viewOps,
      applyOps, applyOp]

/-- C9: with REQUIRE_API_KEY hard-coded to False, the API-key gate always
answers success whatever the header and environment hold, so no request to
POST /send-to-sheets is answered 401. -/
theorem api_key_gate_always_passes (env headerKey : Option String)
    (file : Option (Option DataFrame)) (sp : Spreadsheet) (title : String) :
    requireApiKeyIfEnabled env headerKey = (true, "") ∧
    (sendToSheets env headerKey file sp title).1.isUnauthorized = false := by
  constructor
  · rfl
  · cases file with
    | none => rfl
    | some f => cases f with
      | none => rfl
      | some df => rfl

/-- Conclusion of C1 at given inputs: a 200 response reporting the number
of data rows, and the target worksheet holding exactly the header row
followed by the data rows (so it was cleared and fully overwritten, and
created when missing). -/
def sendNonEmptyOverwrites (env headerKey : Option String) (sp : Spreadsheet)
    (title : String) (df : DataFrame) : Prop :=
  (sendToSheets env headerKey (some (some df)) sp title).1 =
    SendResp.ok df.values.length title ∧
  wsLookup (sendToSheets env headerKey (some (some df)) sp title).2 title =
    some (df.columns :: df.values)

/-- C1: a successful upload whose parsed table is non-empty overwrites the
target worksheet with the header row at A1 followed by the data rows at A2,
creating the worksheet when it does not exist, and reports rows equal to
the number of data rows. -/
theorem sendToSheets_nonempty_overwrites (env headerKey : Option String)
    (sp : Spreadsheet) (title : String) (df : DataFrame)
    (h : dfEmpty df = false) :
    sendNonEmptyOverwrites env headerKey sp title df := by
  have hvals : df.values ≠ [] := by
    intro hnil
    simp [dfEmpty, hnil] at h
  obtain ⟨v, vs, hvv⟩ : ∃ v vs, df.values = v :: vs := by
    cases hdf : df.values with
    | nil => exact absurd hdf hvals
    | cons a b => exact ⟨a, b, rfl⟩
  constructor
  · simp [sendToSheets, requireApiKeyIfEnabled, REQUIRE_API_KEY, h]
  · cases hw : wsLookup sp title with
    | none =>
      simp [sendToSheets, requireApiKeyIfEnabled, REQUIRE_API_KEY, h,
        sendToSheetsOps, hw, applyOps, applyOp, wsLookup_spSet,
        updateRows_zero_nil, hvv, updateRows, mergeRow]
    | some w =>
      simp [sendToSheets, requireApiKeyIfEnabled, REQUIRE_API_KEY, h,
        sendToSheetsOps, hw, applyOps, applyOp, wsLookup_spSet,
        updateRows_zero_nil, hvv, updateRows, mergeRow]

/-- C1 witness: uploading a two-column, two-row table into an empty
spreadsheet. -/
theorem sendToSheets_nonempty_overwrites_witness :
    dfEmpty ⟨[("a"), ("b")], [[("1"), ("2")], [("3"), ("4")]]⟩ = false ∧
    sendNonEmptyOverwrites none none [] ("Cursos Gratuitos")
      ⟨[("a"), ("b")], [[("1"), ("2")], [("3"), ("4")]]⟩ :=
  ⟨by decide, sendToSheets_nonempty_overwrites none none [] ("Cursos Gratuitos")
    ⟨[("a"), ("b")], [[("1"), ("2")], [("3"), ("4")]]⟩ (by decide)⟩

/-- Conclusion of C10 at given inputs: a 200 response reporting zero rows
and the worksheet reduced to the single sentinel cell. -/
def sendEmptyWritesSentinel (env headerKey : Option String) (sp : Spreadsheet)
    (title : String) (df : DataFrame) : Prop :=
  (sendToSheets env headerKey (some (some df)) sp title).1 = SendResp.ok 0 title ∧
  wsLookup (sendToSheets env headerKey (some (some df)) sp title).2 title =
    some [[("(vazio)")]]

/-- C10: a successful upload whose parsed table is empty clears the target
worksheet, writes the sentinel cell at A1, and reports zero rows. -/
theorem sendToSheets_empty_writes_sentinel (env headerKey : Option String)
    (sp : Spreadsheet) (title : String) (df : DataFrame)
    (h : dfEmpty df = true) :
    sendEmptyWritesSentinel env headerKey sp title df := by
  constructor
  · simp [sendToSheets, requireApiKeyIfEnabled, REQUIRE_API_KEY, h]
  · cases hw : wsLookup sp title with
    | none =>
      simp [sendToSheets, requireApiKeyIfEnabled, REQUIRE_API_KEY, h,
        sendToSheetsOps, hw, applyOps, applyOp, wsLookup_spSet,
        updateRows_zero_nil]
    | some w =>
      simp [sendToSheets, requireApiKeyIfEnabled, REQUIRE_API_KEY, h,
        sendToSheetsOps, hw, applyOps, applyOp, wsLookup_spSet,
        updateRows_zero_nil]

/-- C10 witness: uploading an empty table over an existing worksheet. -/
theorem sendToSheets_empty_writes_sentinel_witness :
    dfEmpty ⟨[], []⟩ = true ∧
    sendEmptyWritesSentinel none none [(("Cursos Gratuitos"), [[("old")]])]
      ("Cursos Gratuitos") ⟨[], []⟩ :=
  ⟨by decide, sendToSheets_empty_writes_sentinel none none
    [(("Cursos Gratuitos"), [[("old")]])] ("Cursos Gratuitos") ⟨[], []⟩ (by decide)⟩

/-- C3: the loader succeeds exactly when the variable is set, non-empty and
the chosen content parses as JSON; when the value names an existing file
the file content is the one parsed, otherwise the value itself is; and the
credentials built by _gspread_client carry exactly the Sheets and Drive
scopes. -/
theorem load_service_account_info_forms (env : Option String)
    (fs : String → Option String) (parse : String → Option Json) :
    ((loadServiceAccountInfo env fs parse).isOk = true ↔
      ∃ raw, env = some raw ∧ raw ≠ "" ∧ (parse (chosenContent raw fs)).isSome = true) ∧
    (∀ raw content, env = some raw → raw ≠ "" → fs raw = some content →
      loadServiceAccountInfo env fs parse =
        match parse content with
        | some j => Except.ok j
        | none => Except.error invalidJsonMsg) ∧
    (∀ raw, env = some raw → raw ≠ "" → fs raw = none →
      loadServiceAccountInfo env fs parse =
        match parse raw with
        | some j => Except.ok j
        | none => Except.error invalidJsonMsg) ∧
    (∀ c, gspreadClient env fs parse = Except.ok c → c.scopes = GSHEETS_SCOPES) ∧
    GSHEETS_SCOPES =
      [("https://www.googleapis.com/auth/spreadsheets"),
       ("https://www.googleapis.com/auth/drive")] := by
  refine ⟨?_, ?_, ?_, ?_, rfl⟩
  · cases env with
    | none => simp [loadServiceAccountInfo, Except.isOk, Except.toBool]
    | some raw =>
      by_cases hr : raw = ""
      · simp [loadServiceAccountInfo, hr, Except.isOk, Except.toBool]
      · cases hp : parse (chosenContent raw fs) with
        | none =>
          simp [loadServiceAccountInfo, hr, hp, Except.isOk, Except.toBool]
        | some j =>
          constructor
          · intro _
            exact ⟨raw, rfl, hr, by simp [hp]⟩
          · intro _
            simp [loadServiceAccountInfo, hr, hp, Except.isOk, Except.toBool]
  · intro raw content henv hr hfs
    subst henv
    simp [loadServiceAccountInfo, hr, chosenContent, hfs]
  · intro raw henv hr hfs
    subst henv
    simp [loadServiceAccountInfo, hr, chosenContent, hfs]
  · intro c hc
    cases hload : loadServiceAccountInfo env fs parse with
    | ok info =>
      simp [gspreadClient, hload] at hc
      cases hc
      rfl
    | error e => simp [gspreadClient, hload] at hc

/-- C3 witness: an inline value that is not a file and parses as JSON loads
successfully, through the inline branch of the theorem, and the resulting
client credentials carry the two scopes. -/
theorem load_service_account_info_forms_witness :
    loadServiceAccountInfo (some ("x")) (fun _ => none)
        (fun s => if s = "x" then some Json.null else none) = Except.ok Json.null ∧
    Credentials.scopes ⟨Json.null, GSHEETS_SCOPES⟩ = GSHEETS_SCOPES := by
  have h := load_service_account_info_forms (some ("x")) (fun _ => none)
    (fun s => if s = "x" then some Json.null else none)
  constructor
  · have h2 := h.2.2.1 ("x") rfl (by decide) rfl
    simpa using h2
  · exact h.2.2.2.1 ⟨Json.null, GSHEETS_SCOPES⟩ (by
      simp [gspreadClient, loadServiceAccountInfo, chosenContent])
